import Mathlib

/-!
Verification of the request routing and response-contract layer of the
cloud-native issue tracker (Lambda API handler, local development server,
shared enumerations), shallowly embedded from the TypeScript/JavaScript
sources:

* `services/api/src/handler.ts` — the Lambda handler (pure dispatch on
  method and raw path);
* the local development server (`server.js`) — auth and issue endpoints
  over a JSON-file database, modelled as explicit state passing;
* `packages/shared/src/index.ts` — the role/status/priority enumerations.

JavaScript strings are modelled as Lean `String`; `s.startsWith(p)` and
`s.split("/").pop()` are modelled on the underlying character lists so
that all definitions compute.  Timestamps (`Date.now()`,
`new Date().toISOString()`) are nondeterministic inputs of the
environment and are passed in explicitly as parameters `nowMs : Nat` and
`now : String`.
-/

/-- JavaScript `s.startsWith(p)`: `p` is a prefix of `s` (by code points). -/
def jsStartsWith (s p : String) : Bool :=
  p.data.isPrefixOf s.data

/-- Split a character list on `'/'`, keeping empty segments, exactly as
JavaScript `s.split("/")` does. -/
def splitSlash (acc : List Char) : List Char → List (List Char)
  | [] => [acc.reverse]
  | c :: cs => if c = '/' then acc.reverse :: splitSlash [] cs else splitSlash (c :: acc) cs

/-- JavaScript `s.split("/").pop()`: the last slash-separated segment of
`s` (`split` always yields at least one element, so `pop` never sees an
empty array). -/
def lastSegment (s : String) : String :=
  ⟨(splitSlash [] s.data).getLastD []⟩

/-! ## Lambda API handler (`services/api/src/handler.ts`)

The handler returns an `APIGatewayProxyResultV2` object literal carrying
only `statusCode` and `body`; the optional `headers` field is never set
at any return site, which the embedding records as `none`. -/

/-- The JSON bodies the Lambda handler can produce. -/
inductive LambdaBody where
  | listResult (items : List String) (nextToken : Option String)
  | issueResult (issueId : Option String) (status : String)
  | empty
  | notFound (message : String) (path : String) (method : String)
  deriving Repr, DecidableEq

/-- An `APIGatewayProxyResultV2` as the handler builds it: `statusCode`,
`body`, and the (never populated) optional `headers`. -/
structure LambdaResponse where
  statusCode : Nat
  body : LambdaBody
  headers : Option (List (String × String)) := none
  deriving Repr, DecidableEq

/-- Embeds `handler` from `services/api/src/handler.ts`: linear dispatch on
`(method, rawPath)`.  Wildcard routes are matched with
`rawPath.startsWith("/issues/")` and the id is `rawPath.split("/").pop()`. -/
def handler (method rawPath : String) : LambdaResponse :=
  if rawPath = "/issues" ∧ method = "GET" then
    ⟨200, .listResult [] none, none⟩
  else if rawPath = "/issues" ∧ method = "POST" then
    ⟨201, .issueResult (some "demo") "OPEN", none⟩
  else if jsStartsWith rawPath "/issues/" = true ∧ method = "GET" then
    ⟨200, .issueResult (some (lastSegment rawPath)) "OPEN", none⟩
  else if jsStartsWith rawPath "/issues/" = true ∧ method = "PUT" then
    ⟨200, .issueResult (some (lastSegment rawPath)) "UPDATED", none⟩
  else if jsStartsWith rawPath "/issues/" = true ∧ method = "DELETE" then
    ⟨204, .empty, none⟩
  else
    ⟨404, .notFound "Not Found" rawPath method, none⟩

/-! ## Shared enumerations (`packages/shared/src/index.ts`) -/

/-- Values of `UserRole`, the role enumeration. -/
def userRoles : List String := ["ADMIN", "SUPPORT_STAFF", "END_USER"]

/-- Values of `UserStatus`, the user status enumeration. -/
def userStatuses : List String :=
  ["ACTIVE", "INACTIVE", "SUSPENDED", "PENDING_VERIFICATION"]

/-- Values of `IssueStatus`, the issue status enumeration. -/
def issueStatuses : List String := ["OPEN", "IN_PROGRESS", "RESOLVED", "CLOSED"]

/-- Values of `IssuePriority`, the issue priority enumeration. -/
def issuePriorities : List String := ["LOW", "MEDIUM", "HIGH", "CRITICAL"]

/-! ## Local development server (`server.js`)

The server keeps a JSON-file database `{users, sessions, issues}`; the
embedding passes the database explicitly and returns the updated one.
Request bodies are arbitrary JSON; the embedding records exactly the
fields the handlers read, each as an `Option String` (`none` = the field
is absent).  A whole unparsable body is `none` at the `Option ReqData`
level (the auth handlers catch `JSON.parse` failures; the issue handlers
do not, so for them an unparsable body produces no response at all). -/

/-- A user record as `server.js` creates and stores it. -/
structure User where
  userId : String
  email : String
  firstName : String
  lastName : String
  role : String
  status : String
  createdAt : String
  updatedAt : String
  lastLoginAt : Option String := none
  deriving Repr, DecidableEq

/-- An issue record as `server.js` creates and stores it. -/
structure Issue where
  issueId : String
  title : String
  description : String
  status : String
  priority : String
  reporter : String
  assignee : Option String
  createdAt : String
  updatedAt : String
  tags : List String
  deriving Repr, DecidableEq

/-- The JSON-file database `{users, sessions, issues}`. -/
structure Db where
  users : List User
  sessions : List String
  issues : List Issue
  deriving Repr, DecidableEq

/-- The seeded admin user of the default database structure. -/
def adminUser (now : String) : User :=
  { userId := "admin-001", email := "admin@example.com",
    firstName := "Admin", lastName := "User", role := "ADMIN",
    status := "ACTIVE", createdAt := now, updatedAt := now,
    lastLoginAt := some now }

/-- The default database structure returned by `loadDatabase` when no
database file exists: one ACTIVE admin user, no sessions, no issues.
The timestamps (`new Date().toISOString()`) are the parameter `now`. -/
def defaultDb (now : String) : Db :=
  { users := [adminUser now], sessions := [], issues := [] }

/-- The fields of a parsed JSON request body that any handler reads. -/
structure ReqData where
  email : Option String := none
  password : Option String := none
  firstName : Option String := none
  lastName : Option String := none
  role : Option String := none
  refreshToken : Option String := none
  title : Option String := none
  description : Option String := none
  priority : Option String := none
  tags : Option (List String) := none
  deriving Repr, DecidableEq

/-- JavaScript falsiness of `data.field` for a string-valued field:
`!x` is true when the field is absent (`undefined`) or the empty string. -/
def falsy : Option String → Bool
  | none => true
  | some s => s = ""

/-- JavaScript `x || d` for a string-valued field: the field itself when
present and non-empty, otherwise the default `d`. -/
def jsOr (o : Option String) (d : String) : String :=
  match o with
  | none => d
  | some s => if s = "" then d else s

/-- JavaScript `u.email === data.email`: false when the field is absent. -/
def emailMatches (u : User) (e : Option String) : Bool :=
  match e with
  | some s => u.email = s
  | none => false

/-- The response bodies `server.js` serializes (the `{success, data?,
error?, message?}` auth envelope and the bare issue payloads). -/
inductive Body where
  | err (error message : String)
  | auth (user : User) (token refreshToken : String) (expiresIn : Nat) (message : String)
  | userOk (user : User) (message : String)
  | msgOk (message : String)
  | items (issues : List Issue) (nextToken : Option String)
  | created (i : Issue)
  | getIssue (issueId title description status priority : String)
  | updated (issueId title status priority : String)
  | empty
  | notFound (message path method : String)
  deriving Repr, DecidableEq

/-- A `{statusCode, body}` pair as passed to `sendResponse`. -/
structure Resp where
  statusCode : Nat
  body : Body
  deriving Repr, DecidableEq

/-- Replace the first element satisfying `p` by `f` of it, mirroring the
in-place mutation of the record `Array.prototype.find` returned. -/
def updateFirst (p : α → Bool) (f : α → α) : List α → List α
  | [] => []
  | x :: xs => if p x then f x :: xs else x :: updateFirst p f xs

/-- Embeds `handleRegister`: presence validation, duplicate-email check
(case-sensitive `===`), then creation of a `PENDING_VERIFICATION` user
and a mock token pair.  `none` input models a body `JSON.parse` rejects. -/
def handleRegister (db : Db) (nowMs : Nat) (now : String) :
    Option ReqData → Resp × Db
  | none => (⟨400, .err "Invalid JSON" "Invalid request body"⟩, db)
  | some data =>
    if falsy data.email ∨ falsy data.password ∨ falsy data.firstName ∨
        falsy data.lastName then
      (⟨400, .err "Validation error" "All required fields must be provided"⟩, db)
    else if (db.users.find? (fun u => u.email = data.email.getD "")).isSome then
      (⟨409, .err "User already exists" "A user with this email already exists"⟩, db)
    else
      let newUser : User :=
        { userId := "user-" ++ toString nowMs,
          email := data.email.getD "",
          firstName := data.firstName.getD "",
          lastName := data.lastName.getD "",
          role := jsOr data.role "END_USER",
          status := "PENDING_VERIFICATION",
          createdAt := now, updatedAt := now, lastLoginAt := none }
      let db2 : Db := { db with users := db.users ++ [newUser] }
      (⟨201, .auth newUser ("mock-jwt-token-" ++ toString nowMs)
          ("mock-refresh-token-" ++ toString nowMs) 86400
          "User registered successfully"⟩, db2)

/-- Embeds `handleLogin`: email lookup only — any password is accepted for an
existing user and no status check is performed; updates the last-login and updated
timestamps of the found user. -/
def handleLogin (db : Db) (nowMs : Nat) (now : String) :
    Option ReqData → Resp × Db
  | none => (⟨400, .err "Invalid JSON" "Invalid request body"⟩, db)
  | some data =>
    match db.users.find? (fun u => emailMatches u data.email) with
    | none => (⟨401, .err "Invalid credentials" "Invalid email or password"⟩, db)
    | some user =>
      let user2 : User := { user with lastLoginAt := some now, updatedAt := now }
      let users2 : List User :=
        updateFirst (fun u => emailMatches u data.email)
          (fun u => { u with lastLoginAt := some now, updatedAt := now }) db.users
      let db2 : Db := { db with users := users2 }
      (⟨200, .auth user2 ("mock-jwt-token-" ++ toString nowMs)
          ("mock-refresh-token-" ++ toString nowMs) 86400 "Login successful"⟩, db2)

/-- Embeds `handleRefreshToken`: any present token is accepted without
verification; the response is built from the FIRST user of the
collection (`db.users[0]`); the database is not modified. -/
def handleRefreshToken (db : Db) (nowMs : Nat) :
    Option ReqData → Resp
  | none => ⟨400, .err "Invalid JSON" "Invalid request body"⟩
  | some data =>
    if falsy data.refreshToken then
      ⟨400, .err "Missing refresh token" "Refresh token is required"⟩
    else
      match db.users with
      | [] => ⟨401, .err "Invalid token" "Invalid refresh token"⟩
      | u :: _ =>
        ⟨200, .auth u ("mock-jwt-token-" ++ toString nowMs)
          ("mock-refresh-token-" ++ toString nowMs) 86400
          "Token refreshed successfully"⟩

/-- Embeds `extractTokenFromHeaders`: the bearer token of the `Authorization`
header, when the header is present and starts with `"Bearer "`. -/
def extractTokenFromHeaders (authHeader : Option String) : Option String :=
  match authHeader with
  | none => none
  | some h => if jsStartsWith h "Bearer " then some (h.drop 7) else none

/-- Embeds `handleGetCurrentUser`: requires a bearer token, then returns the
FIRST user of the collection (the token itself is never verified). -/
def handleGetCurrentUser (db : Db) (authHeader : Option String) : Resp :=
  match extractTokenFromHeaders authHeader with
  | none => ⟨401, .err "Missing token" "Authorization token is required"⟩
  | some _ =>
    match db.users with
    | [] => ⟨401, .err "Invalid token" "Invalid authorization token"⟩
    | u :: _ => ⟨200, .userOk u "User retrieved successfully"⟩

/-- Embeds `handleLogout`: unconditional success acknowledgment. -/
def handleLogout : Resp := ⟨200, .msgOk "Logout successful"⟩

/-- Embeds `handleAuthRequest`: dispatch of `/auth/...` endpoints.  The
`/auth` prefix is stripped (the caller guarantees `endpoint` starts with
`"/auth/"`, under which `endpoint.replace("/auth", "")` is
`endpoint.drop 5`). -/
def handleAuthRequest (db : Db) (nowMs : Nat) (now : String)
    (endpoint method : String) (data : Option ReqData)
    (authHeader : Option String) : Resp × Db :=
  let authEndpoint := endpoint.drop 5
  if authEndpoint = "/register" ∧ method = "POST" then
    handleRegister db nowMs now data
  else if authEndpoint = "/login" ∧ method = "POST" then
    handleLogin db nowMs now data
  else if authEndpoint = "/refresh" ∧ method = "POST" then
    (handleRefreshToken db nowMs data, db)
  else if authEndpoint = "/me" ∧ method = "GET" then
    (handleGetCurrentUser db authHeader, db)
  else if authEndpoint = "/logout" ∧ method = "POST" then
    (handleLogout, db)
  else
    (⟨404, .err "Endpoint not found"
        ("Unknown auth endpoint: " ++ method ++ " " ++ endpoint)⟩, db)

/-- Embeds `handleIssueRequest`: dispatch of the issue endpoints.  `POST` and
`PUT` call `JSON.parse` without a `try`, so an unparsable body produces
no response at all (`none`).  List returns the stored issues verbatim;
Get and Put synthesize a record from the last path segment without
consulting the store; Delete is an unconditional 204. -/
def handleIssueRequest (db : Db) (nowMs : Nat) (now : String)
    (endpoint method : String) (data : Option ReqData) :
    Option (Resp × Db) :=
  if endpoint = "/issues" ∧ method = "GET" then
    some (⟨200, .items db.issues none⟩, db)
  else if endpoint = "/issues" ∧ method = "POST" then
    match data with
    | none => none
    | some d =>
      let newIssue : Issue :=
        { issueId := "ISSUE-" ++ toString nowMs,
          title := jsOr d.title "New Issue",
          description := jsOr d.description "",
          status := "OPEN",
          priority := jsOr d.priority "MEDIUM",
          reporter := "admin@example.com",
          assignee := none,
          createdAt := now, updatedAt := now,
          tags := d.tags.getD [] }
      some (⟨201, .created newIssue⟩, { db with issues := db.issues ++ [newIssue] })
  else if jsStartsWith endpoint "/issues/" = true ∧ method = "GET" then
    some (⟨200, .getIssue (lastSegment endpoint) "Sample Issue"
        "This is a sample issue for testing" "OPEN" "MEDIUM"⟩, db)
  else if jsStartsWith endpoint "/issues/" = true ∧ method = "PUT" then
    match data with
    | none => none
    | some d =>
      some (⟨200, .updated (lastSegment endpoint) (jsOr d.title "Updated Issue")
          "UPDATED" (jsOr d.priority "MEDIUM")⟩, db)
  else if jsStartsWith endpoint "/issues/" = true ∧ method = "DELETE" then
    some (⟨204, .empty⟩, db)
  else
    some (⟨404, .notFound "Not Found" endpoint method⟩, db)

/-- Embeds `handleApiRequest`: strip the `/api` prefix (under the guarantee of the caller that `pathname` starts with `"/api/"`, `pathname.replace("/api",
"")` is `pathname.drop 4`) and dispatch to the auth or issue handlers. -/
def handleApiRequest (db : Db) (nowMs : Nat) (now : String)
    (pathname method : String) (data : Option ReqData)
    (authHeader : Option String) : Option (Resp × Db) :=
  let endpoint := pathname.drop 4
  if jsStartsWith endpoint "/auth/" then
    some (handleAuthRequest db nowMs now endpoint method data authHeader)
  else
    handleIssueRequest db nowMs now endpoint method data

/-- The three CORS headers the server callback sets (via `res.setHeader`)
on every response, with the exact values of the source. -/
def corsHeaders : List (String × String) :=
  [("Access-Control-Allow-Origin", "*"),
   ("Access-Control-Allow-Methods", "GET, POST, PUT, DELETE, OPTIONS"),
   ("Access-Control-Allow-Headers", "Content-Type, Authorization")]

/-- A complete HTTP response of the local server: status, the headers
accumulated on the response object, and the body (`none` for the
body-less preflight reply). -/
structure FullResp where
  statusCode : Nat
  headers : List (String × String)
  body : Option Body
  deriving Repr, DecidableEq

/-- Embeds `sendResponse`: the `writeHead` call adding a `Content-Type: application/json`
header on a response object already carrying the CORS
headers. -/
def sendResponse (r : Resp) : FullResp :=
  ⟨r.statusCode, corsHeaders ++ [("Content-Type", "application/json")], some r.body⟩

/-- The server request callback, for the API surface: CORS headers are
set first, `OPTIONS` is answered with a body-less 200, `/api/...` paths
are dispatched, and anything else is static-file serving (out of the
request-handling core; `none` here). -/
def serverRespond (db : Db) (nowMs : Nat) (now : String)
    (method pathname : String) (data : Option ReqData)
    (authHeader : Option String) : Option (FullResp × Db) :=
  if method = "OPTIONS" then
    some (⟨200, corsHeaders, none⟩, db)
  else if jsStartsWith pathname "/api/" then
    (handleApiRequest db nowMs now pathname method data authHeader).map
      (fun r => (sendResponse r.1, r.2))
  else
    none

/-- A stored user whose status is `PENDING_VERIFICATION` (not `ACTIVE`),
as `handleRegister` creates them. -/
def pendingUser : User :=
  { userId := "user-1", email := "p@q.r", firstName := "P", lastName := "Q",
    role := "END_USER", status := "PENDING_VERIFICATION",
    createdAt := "t", updatedAt := "t" }

/-! ## Observation helpers and concrete inputs used by the theorems -/

/-- The status fields of the issue record(s) carried by a response body. -/
def bodyStatuses : Body → List String
  | .created i => [i.status]
  | .getIssue _ _ _ st _ => [st]
  | .updated _ _ st _ => [st]
  | .items is _ => is.map Issue.status
  | _ => []

/-- The priority fields of the issue record(s) carried by a response body. -/
def bodyPriorities : Body → List String
  | .created i => [i.priority]
  | .getIssue _ _ _ _ pr => [pr]
  | .updated _ _ _ pr => [pr]
  | .items is _ => is.map Issue.priority
  | _ => []

/-- The status fields of an (optional) issue-endpoint outcome. -/
def respStatuses : Option (Resp × Db) → List String
  | none => []
  | some (r, _) => bodyStatuses r.body

/-- The priority fields of an (optional) issue-endpoint outcome. -/
def respPriorities : Option (Resp × Db) → List String
  | none => []
  | some (r, _) => bodyPriorities r.body

/-- A well-formed registration request for a fresh email. -/
def freshRegReq : ReqData :=
  { email := some "new@example.com", password := some "password1",
    firstName := some "A", lastName := some "B" }

/-- A registration request whose password is present but shorter than 8
characters. -/
def shortPwReq : ReqData :=
  { email := some "new@example.com", password := some "short",
    firstName := some "A", lastName := some "B" }

/-- A registration request reusing the seeded admin email but with an
empty password. -/
def dupEmailEmptyPwReq : ReqData :=
  { email := some "admin@example.com", password := some "",
    firstName := some "X", lastName := some "Y" }

/-- A registration request reusing the seeded admin email with all
required fields present. -/
def dupEmailReq : ReqData :=
  { email := some "admin@example.com", password := some "password1",
    firstName := some "X", lastName := some "Y" }

/-- The registration request of the refresh-token scenario. -/
def regReqB : ReqData :=
  { email := some "b@c.d", password := some "password1",
    firstName := some "B", lastName := some "C" }

/-- The user `handleRegister (defaultDb "t0") 7 "t1" (some regReqB)`
creates. -/
def userB : User :=
  { userId := "user-7", email := "b@c.d", firstName := "B", lastName := "C",
    role := "END_USER", status := "PENDING_VERIFICATION",
    createdAt := "t1", updatedAt := "t1" }

/-- An issue-creation request supplying a priority outside the
enumeration. -/
def bogusPriorityReq : ReqData :=
  { title := some "Bug", priority := some "BOGUS" }

/-- An issue request with an enumerated priority. -/
def highPriorityReq : ReqData :=
  { title := some "Bug", priority := some "HIGH" }

/-- A registration request supplying an empty-string role. -/
def emptyRoleReq : ReqData :=
  { email := some "r@s.t", password := some "password1",
    firstName := some "R", lastName := some "S", role := some "" }

/-- A registration request supplying a role outside the enumeration. -/
def bogusRoleReq : ReqData :=
  { email := some "r@s.t", password := some "password1",
    firstName := some "R", lastName := some "S", role := some "WIZARD" }

/-! ## Helper lemmas -/

/-- A list is a `isPrefixOf` any extension of itself. -/
theorem isPrefixOf_self_append (l m : List Char) : l.isPrefixOf (l ++ m) = true := by
  induction l with
  | nil => simp [List.isPrefixOf]
  | cons c l ih => simp [List.isPrefixOf, ih]

/-- String append concatenates the underlying character lists. -/
theorem string_data_append (a b : String) : (a ++ b).data = a.data ++ b.data := by
  cases a; cases b; rfl

/-- Extending a string matches `jsStartsWith` on it. -/
theorem jsStartsWith_append (p s : String) : jsStartsWith (p ++ s) p = true := by
  simp [jsStartsWith, string_data_append, isPrefixOf_self_append]

/-- Any extension of `"/issues/"` differs from the exact path `"/issues"`. -/
theorem issues_slash_append_ne (seg : String) : ("/issues/" ++ seg) ≠ "/issues" := by
  intro h
  have h2 : ("/issues/" ++ seg).data.length = ("/issues" : String).data.length := by
    rw [h]
  rw [string_data_append, List.length_append] at h2
  rw [show ("/issues/" : String).data.length = 8 from by decide,
    show ("/issues" : String).data.length = 7 from by decide] at h2
  omega

/-! ## Claim C1 — wildcard routes and deeper paths -/

/-- Claim C1, counterexample: `GET /issues/123/comments` (two segments
beyond the static prefix) is matched by the `/issues/{id}` branch and
answered 200 with `issueId = "comments"`, not 404. -/
theorem c1_deeper_path_matches_wildcard :
    handler "GET" "/issues/123/comments"
      = ⟨200, .issueResult (some "comments") "OPEN", none⟩ ∧
    ((handler "GET" "/issues/123/comments").statusCode == 404) = false := by
  decide

/-- Claim C1 as amended: the router matches wildcard routes by string
prefix, so every `GET` request whose path strictly extends `"/issues/"`
— by however many extra segments — selects the `/issues/{id}` handler
and is answered 200 with the LAST path segment as the id; the not-found
404 arises exactly for paths that neither equal `"/issues"` nor start
with `"/issues/"`. -/
theorem c1_wildcard_matches_by_prefix (p q : String)
    (hp : jsStartsWith p "/issues/" = true)
    (hq1 : q ≠ "/issues") (hq2 : jsStartsWith q "/issues/" = false) :
    handler "GET" p = ⟨200, .issueResult (some (lastSegment p)) "OPEN", none⟩ ∧
    ∀ m, handler m q = ⟨404, .notFound "Not Found" q m, none⟩ := by
  constructor
  · have hne : p ≠ "/issues" := by
      intro h
      rw [h] at hp
      exact absurd hp (by decide)
    simp [handler, hne, hp]
  · intro m
    simp [handler, hq1, hq2]

/-- Witness for `c1_wildcard_matches_by_prefix` at the concrete paths
`/issues/123/comments` and `/unknown`. -/
theorem c1_wildcard_matches_by_prefix_witness :
    handler "GET" "/issues/123/comments"
      = ⟨200, .issueResult (some "comments") "OPEN", none⟩ ∧
    handler "GET" "/unknown" = ⟨404, .notFound "Not Found" "/unknown" "GET", none⟩ := by
  have h := c1_wildcard_matches_by_prefix "/issues/123/comments" "/unknown"
    (by decide) (by decide) (by decide)
  exact ⟨by rw [h.1]; decide, h.2 "GET"⟩

/-! ## Claim C9 — method mismatch on known paths -/

/-- Claim C9: a request whose path is the path of a registered route but
whose method is not registered for it falls through to the 404
not-found result, and no branch of the handler ever produces a 405. -/
theorem c9_method_mismatch_is_404_never_405 (m seg : String) :
    (m ≠ "GET" → m ≠ "POST" → (handler m "/issues").statusCode = 404) ∧
    (m ≠ "GET" → m ≠ "PUT" → m ≠ "DELETE" →
      (handler m ("/issues/" ++ seg)).statusCode = 404) ∧
    (∀ m2 p2, (handler m2 p2).statusCode ≠ 405) := by
  refine ⟨?_, ?_, ?_⟩
  · intro h1 h2
    have hsw : jsStartsWith "/issues" "/issues/" = false := by decide
    simp [handler, h1, h2, hsw]
  · intro h1 h2 h3
    have hne := issues_slash_append_ne seg
    have hsw := jsStartsWith_append "/issues/" seg
    simp [handler, h1, h2, h3, hne, hsw]
  · intro m2 p2
    unfold handler
    repeat' split
    all_goals simp

/-- Witness for `c9_method_mismatch_is_404_never_405` at the concrete
method `PATCH` and segment `123`. -/
theorem c9_method_mismatch_is_404_never_405_witness :
    (handler "PATCH" "/issues").statusCode = 404 ∧
    (handler "PATCH" ("/issues/" ++ "123")).statusCode = 404 := by
  have h := c9_method_mismatch_is_404_never_405 "PATCH" "123"
  exact ⟨h.1 (by decide) (by decide), h.2.1 (by decide) (by decide) (by decide)⟩

/-! ## Claim C2 — Get(id) against the store -/

/-- Claim C2 (the claim is right, the code is not): with the issue store
empty, `GET /issues/xyz` is answered 200 with a synthesized record for
id `xyz` — the store is never consulted and no 404 is produced for a
missing id; the Lambda handler behaves the same way. -/
theorem c2_get_synthesizes_record_for_missing_id :
    (defaultDb "t").issues = [] ∧
    handleIssueRequest (defaultDb "t") 0 "t" "/issues/xyz" "GET" none
      = some (⟨200, .getIssue "xyz" "Sample Issue"
          "This is a sample issue for testing" "OPEN" "MEDIUM"⟩, defaultDb "t") ∧
    handler "GET" "/issues/xyz"
      = ⟨200, .issueResult (some "xyz") "OPEN", none⟩ := by
  decide

/-! ## Claim C3 — login and user status -/

/-- Claim C3, counterexample: a stored user whose status is
`PENDING_VERIFICATION` (not `ACTIVE`) logs in successfully — the
response is 200, not 401. -/
theorem c3_nonactive_user_login_succeeds :
    pendingUser.status = "PENDING_VERIFICATION" ∧
    (pendingUser.status == "ACTIVE") = false ∧
    (handleLogin ⟨[pendingUser], [], []⟩ 0 "t2"
      (some { email := some "p@q.r", password := some "pw" })).1.statusCode
      = 200 := by
  decide

/-- Claim C3 as amended: login checks only that the email of some stored user
matches the request (case-sensitive); any matching user — of any status,
with any password — is logged in with 200 and updated last-login/updated
timestamps, and 401 arises exactly when no user matches the email. -/
theorem c3_login_checks_email_only (db : Db) (nowMs : Nat) (now : String)
    (data : ReqData) (u : User)
    (h : db.users.find? (fun v => emailMatches v data.email) = some u) :
    (handleLogin db nowMs now (some data)).1
      = ⟨200, .auth { u with lastLoginAt := some now, updatedAt := now }
          ("mock-jwt-token-" ++ toString nowMs)
          ("mock-refresh-token-" ++ toString nowMs) 86400 "Login successful"⟩ ∧
    ∀ db2 d2, db2.users.find? (fun v => emailMatches v d2.email) = none →
      (handleLogin db2 nowMs now (some d2)).1.statusCode = 401 := by
  constructor
  · simp [handleLogin, h]
  · intro db2 d2 h2
    simp [handleLogin, h2]

/-- Witness for `c3_login_checks_email_only`: the pending-verification
user of the counterexample database. -/
theorem c3_login_checks_email_only_witness :
    (handleLogin ⟨[pendingUser], [], []⟩ 3 "t3"
      (some { email := some "p@q.r" })).1
      = ⟨200, .auth { pendingUser with lastLoginAt := some "t3", updatedAt := "t3" }
          "mock-jwt-token-3" "mock-refresh-token-3" 86400 "Login successful"⟩ := by
  have h := c3_login_checks_email_only ⟨[pendingUser], [], []⟩ 3 "t3"
    { email := some "p@q.r" } pendingUser (by decide)
  exact h.1.trans (by decide)

/-! ## Claim C4 — registration and password length -/

/-- Claim C4, counterexample: a registration whose password `"short"`
has 5 < 8 characters succeeds with 201 — no password-length validation
exists. -/
theorem c4_short_password_registration_succeeds :
    shortPwReq.password = some "short" ∧
    "short".length = 5 ∧
    (handleRegister (defaultDb "t") 5 "t" (some shortPwReq)).1.statusCode
      = 201 := by
  decide

/-- Claim C4 as amended: registration validates only the PRESENCE
(non-emptiness) of email, password, firstName and lastName; with all
four present and a fresh email it succeeds regardless of password
length, and the only validation failure is the 400
`"All required fields must be provided"` produced when a required field
is missing or empty. -/
theorem c4_register_validates_presence_only (db : Db) (nowMs : Nat)
    (now : String) (data : ReqData)
    (hE : falsy data.email = false) (hP : falsy data.password = false)
    (hF : falsy data.firstName = false) (hL : falsy data.lastName = false)
    (hdup : db.users.find? (fun u => u.email = data.email.getD "") = none) :
    (handleRegister db nowMs now (some data)).1.statusCode = 201 ∧
    ∀ d2 : ReqData, falsy d2.password = true →
      (handleRegister db nowMs now (some d2)).1
        = ⟨400, .err "Validation error" "All required fields must be provided"⟩ := by
  constructor
  · simp [handleRegister, hE, hP, hF, hL, hdup]
  · intro d2 h2
    simp [handleRegister, h2]

/-- Witness for `c4_register_validates_presence_only` at the
short-password request. -/
theorem c4_register_validates_presence_only_witness :
    (handleRegister (defaultDb "t") 5 "t" (some shortPwReq)).1.statusCode = 201 := by
  exact (c4_register_validates_presence_only (defaultDb "t") 5 "t" shortPwReq
    (by decide) (by decide) (by decide) (by decide) (by decide)).1

/-! ## Claim C5 — duplicate email registration -/

/-- Claim C5, counterexample: a registration request whose email equals
the stored admin email but whose password is empty is answered 400 by
the presence validation, not 409 — the duplicate-email conflict is NOT
produced regardless of the other fields. -/
theorem c5_duplicate_email_empty_password_gives_400 :
    ((defaultDb "t").users.map User.email) = ["admin@example.com"] ∧
    dupEmailEmptyPwReq.email = some "admin@example.com" ∧
    (handleRegister (defaultDb "t") 0 "t" (some dupEmailEmptyPwReq)).1.statusCode
      = 400 ∧
    ((handleRegister (defaultDb "t") 0 "t" (some dupEmailEmptyPwReq)).1.statusCode
      == 409) = false := by
  decide

/-- Claim C5 as amended: when the four required fields are present and
non-empty and the email equals that of a stored user (case-sensitive
`===`), registration fails with 409 and the database — in particular
the user collection — is unchanged. -/
theorem c5_duplicate_email_conflict (db : Db) (nowMs : Nat) (now : String)
    (data : ReqData) (u : User)
    (hE : falsy data.email = false) (hP : falsy data.password = false)
    (hF : falsy data.firstName = false) (hL : falsy data.lastName = false)
    (hdup : db.users.find? (fun v => v.email = data.email.getD "") = some u) :
    handleRegister db nowMs now (some data)
      = (⟨409, .err "User already exists" "A user with this email already exists"⟩,
          db) := by
  simp [handleRegister, hE, hP, hF, hL, hdup]

/-- Witness for `c5_duplicate_email_conflict`: reusing the seeded admin
email with all fields present. -/
theorem c5_duplicate_email_conflict_witness :
    handleRegister (defaultDb "t") 0 "t" (some dupEmailReq)
      = (⟨409, .err "User already exists" "A user with this email already exists"⟩,
          defaultDb "t") := by
  exact c5_duplicate_email_conflict (defaultDb "t") 0 "t" dupEmailReq
    (adminUser "t") (by decide) (by decide) (by decide) (by decide) (by decide)

/-! ## Claim C6 — refresh-token semantics -/

/-- Claim C6, counterexample: registering user B returns the refresh
token `"mock-refresh-token-7"`, but refreshing with that very token (or
with any garbage string — no verification happens) returns a token pair
bound to the FIRST stored user, the admin, not to B. -/
theorem c6_refresh_not_bound_to_token_user :
    (handleRegister (defaultDb "t0") 7 "t1" (some regReqB)).1
      = ⟨201, .auth userB "mock-jwt-token-7" "mock-refresh-token-7" 86400
          "User registered successfully"⟩ ∧
    handleRefreshToken (handleRegister (defaultDb "t0") 7 "t1" (some regReqB)).2 9
        (some { refreshToken := some "mock-refresh-token-7" })
      = ⟨200, .auth (adminUser "t0") "mock-jwt-token-9" "mock-refresh-token-9" 86400
          "Token refreshed successfully"⟩ ∧
    (userB.userId == (adminUser "t0").userId) = false ∧
    (handleRefreshToken (defaultDb "t0") 9
      (some { refreshToken := some "garbage" })).statusCode = 200 := by
  decide

/-- Claim C6 as amended: a missing or empty refresh token is rejected
with the 400 validation error; any present token is accepted with NO
verification, and the new token pair is bound to the FIRST user of the
collection (`db.users[0]`) — 401 arises only when the user collection is
empty. -/
theorem c6_refresh_uses_first_user (db : Db) (nowMs : Nat) (data : ReqData) :
    (falsy data.refreshToken = true →
      handleRefreshToken db nowMs (some data)
        = ⟨400, .err "Missing refresh token" "Refresh token is required"⟩) ∧
    (falsy data.refreshToken = false → db.users = [] →
      handleRefreshToken db nowMs (some data)
        = ⟨401, .err "Invalid token" "Invalid refresh token"⟩) ∧
    (∀ u rest, falsy data.refreshToken = false → db.users = u :: rest →
      handleRefreshToken db nowMs (some data)
        = ⟨200, .auth u ("mock-jwt-token-" ++ toString nowMs)
            ("mock-refresh-token-" ++ toString nowMs) 86400
            "Token refreshed successfully"⟩) := by
  refine ⟨fun h1 => ?_, fun h1 h2 => ?_, fun u rest h1 h2 => ?_⟩
  · simp [handleRefreshToken, h1]
  · simp [handleRefreshToken, h1, h2]
  · simp [handleRefreshToken, h1, h2]

/-- Witness for `c6_refresh_uses_first_user`: the default database and
concrete tokens. -/
theorem c6_refresh_uses_first_user_witness :
    handleRefreshToken (defaultDb "t0") 9 (some { refreshToken := none })
      = ⟨400, .err "Missing refresh token" "Refresh token is required"⟩ ∧
    handleRefreshToken (defaultDb "t0") 9 (some { refreshToken := some "anything" })
      = ⟨200, .auth (adminUser "t0") "mock-jwt-token-9" "mock-refresh-token-9" 86400
          "Token refreshed successfully"⟩ := by
  have h0 := c6_refresh_uses_first_user (defaultDb "t0") 9 { refreshToken := none }
  have h := c6_refresh_uses_first_user (defaultDb "t0") 9
    { refreshToken := some "anything" }
  refine ⟨h0.1 (by decide), ?_⟩
  have h2 := h.2.2 (adminUser "t0") [] (by decide) (by decide)
  exact h2.trans (by decide)

/-! ## Claim C7 — status/priority enumerations on returned records -/

/-- Claim C7, counterexample: the Update operation returns a record with
the literal status `"UPDATED"`, which is not one of the four enumerated
issue statuses, and Create stores a caller-supplied priority `"BOGUS"`
verbatim although it is outside the priority enumeration; the Lambda
Update branch of the Lambda handler answers `"UPDATED"` as well. -/
theorem c7_update_status_outside_enum :
    handleIssueRequest (defaultDb "t") 3 "t" "/issues/123" "PUT"
        (some ({} : ReqData))
      = some (⟨200, .updated "123" "Updated Issue" "UPDATED" "MEDIUM"⟩,
          defaultDb "t") ∧
    (issueStatuses.contains "UPDATED") = false ∧
    ((handleIssueRequest (defaultDb "t") 3 "t" "/issues" "POST"
        (some bogusPriorityReq)).map (fun r => r.2.issues.map Issue.priority))
      = some ["BOGUS"] ∧
    (issuePriorities.contains "BOGUS") = false ∧
    handler "PUT" "/issues/123"
      = ⟨200, .issueResult (some "123") "UPDATED", none⟩ := by
  decide

/-- Claim C7 as amended: Create always returns status `OPEN` and, for an
enumerated caller-supplied priority, an enumerated priority; Get returns
the synthesized `OPEN`/`MEDIUM` record; but the record Update returns has
the status `"UPDATED"`, which lies outside the issue-status
enumeration (and List merely echoes whatever records are stored). -/
theorem c7_enum_invariant_except_update (db : Db) (nowMs : Nat) (now : String)
    (d : ReqData) (p seg : String)
    (hp : d.priority = some p) (hmem : p ∈ issuePriorities)
    (hseg : jsStartsWith seg "/issues/" = true) :
    (∀ s ∈ respStatuses (handleIssueRequest db nowMs now "/issues" "POST" (some d)),
      s ∈ issueStatuses) ∧
    (∀ q ∈ respPriorities (handleIssueRequest db nowMs now "/issues" "POST" (some d)),
      q ∈ issuePriorities) ∧
    respStatuses (handleIssueRequest db nowMs now seg "GET" none) = ["OPEN"] ∧
    respPriorities (handleIssueRequest db nowMs now seg "GET" none) = ["MEDIUM"] ∧
    respStatuses (handleIssueRequest db nowMs now seg "PUT" (some d)) = ["UPDATED"] ∧
    (issueStatuses.contains "UPDATED") = false := by
  have hne : seg ≠ "/issues" := by
    intro h
    rw [h] at hseg
    exact absurd hseg (by decide)
  refine ⟨?_, ?_, ?_, ?_, ?_, by decide⟩
  · intro s hs
    simp [handleIssueRequest, respStatuses, bodyStatuses] at hs
    subst hs
    decide
  · intro q hq
    simp [handleIssueRequest, respPriorities, bodyPriorities, hp, jsOr] at hq
    by_cases hp0 : p = ""
    · simp [hp0] at hq
      subst hq
      decide
    · simp [hp0] at hq
      subst hq
      exact hmem
  · simp [handleIssueRequest, respStatuses, bodyStatuses, hne, hseg]
  · simp [handleIssueRequest, respPriorities, bodyPriorities, hne, hseg]
  · simp [handleIssueRequest, respStatuses, bodyStatuses, hne, hseg]

/-- Witness for `c7_enum_invariant_except_update` at the concrete path
`/issues/123` and an enumerated priority. -/
theorem c7_enum_invariant_except_update_witness :
    respStatuses (handleIssueRequest (defaultDb "t") 3 "t" "/issues/123" "PUT"
      (some highPriorityReq)) = ["UPDATED"] ∧
    respStatuses (handleIssueRequest (defaultDb "t") 3 "t" "/issues/123" "GET"
      none) = ["OPEN"] := by
  have h := c7_enum_invariant_except_update (defaultDb "t") 3 "t" highPriorityReq
    "HIGH" "/issues/123" (by decide) (by decide) (by decide)
  exact ⟨h.2.2.2.2.1, h.2.2.1⟩

/-! ## Claim C8 — response headers -/

/-- Every return site of the Lambda handler omits the `headers` field. -/
theorem handler_headers_none (m p : String) : (handler m p).headers = none := by
  unfold handler
  repeat' split
  all_goals rfl

/-- Claim C8, counterexample: the responses of the Lambda handler carry no
headers at all — neither the CORS headers nor a content type — and even
the CORS header values of the local server are spelled with spaces
(`"Content-Type, Authorization"`, `"GET, POST, PUT, DELETE, OPTIONS"`),
not the space-less strings of the claim. -/
theorem c8_lambda_responses_carry_no_headers :
    (handler "GET" "/issues").headers = none ∧
    (handler "POST" "/issues").headers = none ∧
    (handler "GET" "/unknown").headers = none ∧
    ((corsHeaders.map Prod.snd).contains "Content-Type,Authorization") = false ∧
    ((corsHeaders.map Prod.snd).contains "GET,POST,PUT,DELETE,OPTIONS") = false ∧
    ((corsHeaders.map Prod.snd).contains "Content-Type, Authorization") = true := by
  decide

/-- Claim C8 as amended: every response of the API surface of the
LOCAL SERVER carries the three CORS headers (with the spaced values of
the source), and every non-preflight API response additionally carries
`Content-Type: application/json`; the responses of the Lambda handler carry
no headers at all. -/
theorem c8_local_server_sets_cors_headers (db : Db) (nowMs : Nat) (now : String)
    (method pathname : String) (data : Option ReqData) (ah : Option String)
    (r : FullResp) (db2 : Db)
    (h : serverRespond db nowMs now method pathname data ah = some (r, db2)) :
    (∀ hd ∈ corsHeaders, hd ∈ r.headers) ∧
    (method ≠ "OPTIONS" → ("Content-Type", "application/json") ∈ r.headers) ∧
    (∀ m p, (handler m p).headers = none) := by
  unfold serverRespond at h
  by_cases hm : method = "OPTIONS"
  · simp [hm] at h
    refine ⟨?_, fun hne => absurd hm hne, fun m p => handler_headers_none m p⟩
    intro hd hmem
    rw [← h.1]
    exact hmem
  · simp [hm] at h
    by_cases hsw : jsStartsWith pathname "/api/" = true
    · simp [hsw] at h
      rcases happ : handleApiRequest db nowMs now pathname method data ah with _ | x
      · rw [happ] at h
        simp at h
      · rw [happ] at h
        simp at h
        obtain ⟨a, hx, hra⟩ := h
        have hr : r = sendResponse a := hra.symm
        subst hr
        refine ⟨?_, fun _ => ?_, fun m p => handler_headers_none m p⟩
        · intro hd hmem
          show hd ∈ corsHeaders ++ [("Content-Type", "application/json")]
          exact List.mem_append_left _ hmem
        · show ("Content-Type", "application/json") ∈
            corsHeaders ++ [("Content-Type", "application/json")]
          simp
    · simp [hsw] at h

/-- Witness for `c8_local_server_sets_cors_headers` at the concrete
request `GET /api/issues` on the default database. -/
theorem c8_local_server_sets_cors_headers_witness :
    ("Content-Type", "application/json")
      ∈ (corsHeaders ++ [("Content-Type", "application/json")]) ∧
    (handler "GET" "/issues").headers = none := by
  have h := c8_local_server_sets_cors_headers (defaultDb "t") 0 "t" "GET"
    "/api/issues" none none
    ⟨200, corsHeaders ++ [("Content-Type", "application/json")],
      some (.items [] none)⟩
    (defaultDb "t") (by decide)
  exact ⟨h.2.1 (by decide), h.2.2 "GET" "/issues"⟩

/-! ## Claim C10 — roles at registration -/

/-- Claim C10, counterexample: a caller-supplied role that is the EMPTY
string is not stored verbatim — JavaScript `data.role` or-default
treats it as falsy, so the role of the created user is `"END_USER"`, not
`""`. -/
theorem c10_empty_role_not_stored_verbatim :
    emptyRoleReq.role = some "" ∧
    ((handleRegister (defaultDb "t") 1 "t" (some emptyRoleReq)).2.users.map
        User.role)
      = ["ADMIN", "END_USER"] ∧
    ("" == "END_USER") = false := by
  decide

/-- Claim C10 as amended: any NON-EMPTY caller-supplied role string is
stored verbatim in the created user — with no check against the role
enumeration — while an absent OR empty role defaults to `END_USER`. -/
theorem c10_role_stored_verbatim_unless_falsy (db : Db) (nowMs : Nat)
    (now : String) (data : ReqData)
    (hE : falsy data.email = false) (hP : falsy data.password = false)
    (hF : falsy data.firstName = false) (hL : falsy data.lastName = false)
    (hdup : db.users.find? (fun u => u.email = data.email.getD "") = none) :
    (∀ r, data.role = some r → r ≠ "" →
      ((handleRegister db nowMs now (some data)).2.users.map User.role)
        = db.users.map User.role ++ [r]) ∧
    ((data.role = none ∨ data.role = some "") →
      ((handleRegister db nowMs now (some data)).2.users.map User.role)
        = db.users.map User.role ++ ["END_USER"]) := by
  constructor
  · intro r hr hr0
    simp [handleRegister, hE, hP, hF, hL, hdup, jsOr, hr, hr0]
  · intro hcase
    rcases hcase with hc | hc <;>
      simp [handleRegister, hE, hP, hF, hL, hdup, jsOr, hc]

/-- Witness for `c10_role_stored_verbatim_unless_falsy`: the role
`"WIZARD"`, outside the role enumeration, is stored verbatim. -/
theorem c10_role_stored_verbatim_unless_falsy_witness :
    ((handleRegister (defaultDb "t") 1 "t" (some bogusRoleReq)).2.users.map
        User.role)
      = ["ADMIN", "WIZARD"] ∧
    (userRoles.contains "WIZARD") = false := by
  have h := c10_role_stored_verbatim_unless_falsy (defaultDb "t") 1 "t"
    bogusRoleReq (by decide) (by decide) (by decide) (by decide) (by decide)
  refine ⟨?_, by decide⟩
  have h2 := h.1 "WIZARD" (by decide) (by decide)
  exact h2.trans (by decide)
